import Mathlib

/-!
Verification of `PartialAsyncRead` (src/src/async_read.rs) from the
rust-partial-io repository.

The wrapper holds an underlying reader and a queue of scripted operations
(`PartialOp`).  Each `read` call pulls the next scripted operation and either
delegates a (possibly truncated) read to the underlying reader or synthesizes
an error without touching it.  Write/flush/shutdown calls are forwarded
unscripted for duplex support.

Embedding choices:
* Bytes are `Nat`, a buffer is a `List Nat`.  A Rust `&mut [u8]` slice cannot
  change length, so the underlying reader's output slice carries a length-
  preservation proof in a subtype.
* The underlying stream is a pure state-passing function.  A reader takes its
  state and the slice handed to it, and returns the `io::Result<usize>`, the
  new contents of that slice, and its new state.
* The scripted-operation iterator is a `List PartialOp`; `next()` is matching
  on head and tail, exhaustion is the empty list (the `None` arm).
* The outcome record carries two instrumentation fields mirroring the side
  effects of the Rust code: `wake` (did the `Err` arm call
  `task::park().unpark()`) and `innerCalls` (how many delegated calls were
  made to the underlying reader during this call).
-/

/-- Model of `std::io::ErrorKind`: the host error classification.  Only the
distinguished `wouldBlock` kind matters to the code; a few further kinds
stand in for the rest of the vocabulary. -/
inductive ErrorKind where
  | wouldBlock
  | interrupted
  | connectionReset
  | unexpectedEof
  | other
  deriving DecidableEq, BEq, Repr

/-- Model of `std::io::Error`: an error kind together with its payload
message, as built by `io::Error::new(kind, msg)`. -/
structure IoError where
  kind : ErrorKind
  message : String
  deriving DecidableEq, BEq, Repr

/-- Modelled from the spec: the Scripted Operation type `PartialOp`
(defined in the crate root, which is not among the provided sources):
`Unlimited` (full pass-through), `Limited n` (at most `n` bytes), or
`Err kind` (synthesize a failure of that kind, no underlying I/O). -/
inductive PartialOp where
  | unlimited
  | limited (n : Nat)
  | err (kind : ErrorKind)
  deriving DecidableEq, BEq, Repr

/-- The behaviour of the underlying reader `R: AsyncRead`.  Given its state
and the slice passed to `read`, it returns the `io::Result<usize>`, the new
contents of that slice (same length: a Rust slice cannot grow or shrink),
and its new state. -/
def ReadFn (σ : Type) : Type :=
  σ → (b : List Nat) → Except IoError Nat × { l : List Nat // l.length = b.length } × σ

/-- The behaviour of the underlying writer: `write(buf)` returns
`io::Result<usize>` and a new state. -/
def WriteFn (σ : Type) : Type :=
  σ → List Nat → Except IoError Nat × σ

/-- The behaviour of the underlying `flush`: returns `io::Result<()>` and a
new state. -/
def FlushFn (σ : Type) : Type :=
  σ → Except IoError Unit × σ

/-- Model of `futures::Async` for `Poll<(), io::Error>` results. -/
inductive Async (α : Type) where
  | ready (a : α)
  | notReady
  deriving DecidableEq, BEq, Repr

/-- The behaviour of the underlying `AsyncWrite::shutdown`: returns
`Poll<(), io::Error>` and a new state. -/
def ShutdownFn (σ : Type) : Type :=
  σ → Except IoError (Async Unit) × σ

/-- The wrapper `PartialAsyncRead<R>`: an owned underlying reader state and
the scripted-operation queue (`ops`). -/
structure PartialAsyncRead (σ : Type) where
  inner : σ
  ops : List PartialOp
  deriving DecidableEq, BEq, Repr

/-- `PartialAsyncRead::new(inner, iter)`: wrap a reader with a script. -/
def PartialAsyncRead.new {σ : Type} (inner : σ) (iter : List PartialOp) :
    PartialAsyncRead σ :=
  { inner := inner, ops := iter }

/-- `PartialAsyncRead::set_ops(iter)`: replace the scripted operations,
discarding whatever was left of the old script; the underlying reader is
untouched.  (In Rust this mutates in place and returns `&mut Self`; the
functional embedding returns the updated wrapper.) -/
def PartialAsyncRead.set_ops {σ : Type} (p : PartialAsyncRead σ) (iter : List PartialOp) :
    PartialAsyncRead σ :=
  { p with ops := iter }

/-- `PartialAsyncRead::get_ref()`. -/
def PartialAsyncRead.get_ref {σ : Type} (p : PartialAsyncRead σ) : σ :=
  p.inner

/-- `PartialAsyncRead::into_inner()`. -/
def PartialAsyncRead.into_inner {σ : Type} (p : PartialAsyncRead σ) : σ :=
  p.inner

/-- Everything one `read` call on the wrapper produces: the returned
`io::Result<usize>`, the destination buffer after the call, the wrapper's
new underlying-reader state and remaining script, whether the task was
signalled to wake (`task::park().unpark()`), and how many delegated calls
were made to the underlying reader. -/
structure ReadOutcome (σ : Type) where
  result : Except IoError Nat
  buf : List Nat
  inner : σ
  ops : List PartialOp
  wake : Bool
  innerCalls : Nat

/-- `<PartialAsyncRead<R> as Read>::read(buf)`, translated arm by arm:
* `Some(Limited(n))`: `len = min(n, buf.len())`, delegate
  `inner.read(&mut buf[..len])`;
* `Some(Err(err))`: if `err == WouldBlock` then `task::park().unpark()`;
  return `Err(io::Error::new(err, "error during read, generated by partial-io"))`;
* `Some(Unlimited) | None`: delegate `inner.read(buf)` in full. -/
def PartialAsyncRead.read {σ : Type} (R : ReadFn σ) (p : PartialAsyncRead σ)
    (buf : List Nat) : ReadOutcome σ :=
  match p.ops with
  | PartialOp.limited n :: rest =>
      let len := min n buf.length
      let r := R p.inner (buf.take len)
      { result := r.1, buf := r.2.1.1 ++ buf.drop len, inner := r.2.2,
        ops := rest, wake := false, innerCalls := 1 }
  | PartialOp.err kind :: rest =>
      { result := Except.error ⟨kind, "error during read, generated by partial-io"⟩,
        buf := buf, inner := p.inner,
        ops := rest, wake := kind == ErrorKind.wouldBlock, innerCalls := 0 }
  | PartialOp.unlimited :: rest =>
      let r := R p.inner buf
      { result := r.1, buf := r.2.1.1, inner := r.2.2,
        ops := rest, wake := false, innerCalls := 1 }
  | [] =>
      let r := R p.inner buf
      { result := r.1, buf := r.2.1.1, inner := r.2.2,
        ops := [], wake := false, innerCalls := 1 }

/-- `<PartialAsyncRead<R> as Write>::write(buf)`: forwarded directly to the
underlying stream, bypassing the scripted-operation queue. -/
def PartialAsyncRead.write {σ : Type} (W : WriteFn σ) (p : PartialAsyncRead σ)
    (buf : List Nat) : Except IoError Nat × PartialAsyncRead σ :=
  let r := W p.inner buf
  (r.1, { p with inner := r.2 })

/-- `<PartialAsyncRead<R> as Write>::flush()`: forwarded directly. -/
def PartialAsyncRead.flush {σ : Type} (F : FlushFn σ) (p : PartialAsyncRead σ) :
    Except IoError Unit × PartialAsyncRead σ :=
  let r := F p.inner
  (r.1, { p with inner := r.2 })

/-- `<PartialAsyncRead<R> as AsyncWrite>::shutdown()`: forwarded directly. -/
def PartialAsyncRead.shutdown {σ : Type} (S : ShutdownFn σ) (p : PartialAsyncRead σ) :
    Except IoError (Async Unit) × PartialAsyncRead σ :=
  let r := S p.inner
  (r.1, { p with inner := r.2 })

/-! Helper lemmas and concrete underlying readers used by the witnesses. -/

/-- Dropping the length of the left part of an append leaves the right part. -/
theorem drop_append_of_length_eq {α : Type} (l₁ l₂ : List α) (k : Nat)
    (h : l₁.length = k) : (l₁ ++ l₂).drop k = l₂ := by
  subst h
  exact List.drop_left l₁ l₂

/-- A well-behaved underlying reader over state `Nat`: fills the whole slice
it is handed with the byte `7`, reports the full slice length, bumps its
state. -/
def okReader : ReadFn Nat :=
  fun s b => (Except.ok b.length, ⟨b.map (fun _ => 7), by simp⟩, s + 1)

/-- An underlying reader that always fails with a fixed genuine error. -/
def errReader : ReadFn Nat :=
  fun s b => (Except.error ⟨ErrorKind.unexpectedEof, "inner failure"⟩, ⟨b, rfl⟩, s)

/-- C1: when the next scripted operation is `Limited(n)` and the destination
buffer has length `L`, `read` delegates exactly one call to the underlying
stream on the slice `buf[..min n L]`, leaves the buffer beyond `min n L`
untouched, and returns `min n L` when the underlying stream reads the full
slice. -/
theorem limited_read_delegates_min {σ : Type} (R : ReadFn σ) (p : PartialAsyncRead σ)
    (buf : List Nat) (n : Nat) (rest : List PartialOp)
    (hops : p.ops = PartialOp.limited n :: rest) :
    (p.read R buf).result = (R p.inner (buf.take (min n buf.length))).1 ∧
    (p.read R buf).innerCalls = 1 ∧
    (p.read R buf).buf.drop (min n buf.length) = buf.drop (min n buf.length) ∧
    ((R p.inner (buf.take (min n buf.length))).1 = Except.ok (min n buf.length) →
      (p.read R buf).result = Except.ok (min n buf.length)) := by
  obtain ⟨inner, ops⟩ := p
  simp only at hops
  subst hops
  refine ⟨rfl, rfl, ?_, fun h => h⟩
  show ((R inner (buf.take (min n buf.length))).2.1.1 ++ buf.drop (min n buf.length)).drop
      (min n buf.length) = buf.drop (min n buf.length)
  apply drop_append_of_length_eq
  rw [(R inner (buf.take (min n buf.length))).2.1.2, List.length_take]
  exact Nat.min_eq_left (Nat.min_le_right n buf.length)

/-- Witness for C1 at a concrete input: script `[Limited(2)]`, buffer
`[1, 2, 3]`, a full-slice underlying reader. -/
theorem limited_read_delegates_min_witness :
    (PartialAsyncRead.new 0 [PartialOp.limited 2]).ops = [PartialOp.limited 2] ∧
    (((PartialAsyncRead.new 0 [PartialOp.limited 2]).read okReader [1, 2, 3]).result
        = Except.ok 2 ∧
      ((PartialAsyncRead.new 0 [PartialOp.limited 2]).read okReader [1, 2, 3]).innerCalls = 1 ∧
      ((PartialAsyncRead.new 0 [PartialOp.limited 2]).read okReader [1, 2, 3]).buf.drop 2
        = [3] ∧
      ((okReader 0 [1, 2]).1 = Except.ok 2 →
        ((PartialAsyncRead.new 0 [PartialOp.limited 2]).read okReader [1, 2, 3]).result
          = Except.ok 2)) :=
  ⟨rfl, limited_read_delegates_min okReader
    (PartialAsyncRead.new 0 [PartialOp.limited 2]) [1, 2, 3] 2 [] rfl⟩

/-- C2: when the next scripted operation is `Err(kind)`, the underlying
stream is not invoked (zero delegated calls, its state unchanged), the
destination buffer is untouched, and the returned failure's kind is exactly
`kind`. -/
theorem err_read_no_inner_call {σ : Type} (R : ReadFn σ) (p : PartialAsyncRead σ)
    (buf : List Nat) (kind : ErrorKind) (rest : List PartialOp)
    (hops : p.ops = PartialOp.err kind :: rest) :
    (p.read R buf).innerCalls = 0 ∧
    (p.read R buf).buf = buf ∧
    (p.read R buf).inner = p.inner ∧
    ∃ e : IoError, (p.read R buf).result = Except.error e ∧ e.kind = kind := by
  obtain ⟨inner, ops⟩ := p
  simp only at hops
  subst hops
  exact ⟨rfl, rfl, rfl, ⟨_, rfl, rfl⟩⟩

/-- Witness for C2 at a concrete input: script `[Err(Interrupted)]`. -/
theorem err_read_no_inner_call_witness :
    (PartialAsyncRead.new 0 [PartialOp.err ErrorKind.interrupted]).ops
      = [PartialOp.err ErrorKind.interrupted] ∧
    (((PartialAsyncRead.new 0 [PartialOp.err ErrorKind.interrupted]).read okReader
        [1, 2, 3]).innerCalls = 0 ∧
      ((PartialAsyncRead.new 0 [PartialOp.err ErrorKind.interrupted]).read okReader
        [1, 2, 3]).buf = [1, 2, 3] ∧
      ((PartialAsyncRead.new 0 [PartialOp.err ErrorKind.interrupted]).read okReader
        [1, 2, 3]).inner = 0 ∧
      ∃ e : IoError,
        ((PartialAsyncRead.new 0 [PartialOp.err ErrorKind.interrupted]).read okReader
          [1, 2, 3]).result = Except.error e ∧ e.kind = ErrorKind.interrupted) :=
  ⟨rfl, err_read_no_inner_call okReader
    (PartialAsyncRead.new 0 [PartialOp.err ErrorKind.interrupted]) [1, 2, 3]
    ErrorKind.interrupted [] rfl⟩

/-- C3: when the next scripted operation is `Unlimited`, or the script is
exhausted (the queue yields `None`), `read` delegates the full unmodified
call to the underlying stream and returns its result, buffer contents and
new state unchanged — exactly as if no wrapper were present. -/
theorem unlimited_or_exhausted_pass_through {σ : Type} (R : ReadFn σ)
    (p : PartialAsyncRead σ) (buf : List Nat)
    (h : p.ops.head? = some PartialOp.unlimited ∨ p.ops = []) :
    (p.read R buf).result = (R p.inner buf).1 ∧
    (p.read R buf).buf = (R p.inner buf).2.1.1 ∧
    (p.read R buf).inner = (R p.inner buf).2.2 ∧
    (p.read R buf).innerCalls = 1 := by
  obtain ⟨inner, ops⟩ := p
  simp only at h
  rcases h with h | h
  · cases ops with
    | nil => simp at h
    | cons op rest =>
        simp only [List.head?_cons, Option.some.injEq] at h
        subst h
        exact ⟨rfl, rfl, rfl, rfl⟩
  · subst h
    exact ⟨rfl, rfl, rfl, rfl⟩

/-- Witness for C3 at a concrete input: script `[Unlimited]`. -/
theorem unlimited_or_exhausted_pass_through_witness :
    ((PartialAsyncRead.new 0 [PartialOp.unlimited]).ops.head? = some PartialOp.unlimited ∨
      (PartialAsyncRead.new 0 [PartialOp.unlimited]).ops = []) ∧
    (((PartialAsyncRead.new 0 [PartialOp.unlimited]).read okReader [1, 2]).result
        = Except.ok 2 ∧
      ((PartialAsyncRead.new 0 [PartialOp.unlimited]).read okReader [1, 2]).buf = [7, 7] ∧
      ((PartialAsyncRead.new 0 [PartialOp.unlimited]).read okReader [1, 2]).inner = 1 ∧
      ((PartialAsyncRead.new 0 [PartialOp.unlimited]).read okReader [1, 2]).innerCalls = 1) :=
  ⟨Or.inl rfl, unlimited_or_exhausted_pass_through okReader
    (PartialAsyncRead.new 0 [PartialOp.unlimited]) [1, 2] (Or.inl rfl)⟩

/-- C4: when the next scripted operation is `Err(kind)`, the wake signal
(`task::park().unpark()`) is emitted if and only if `kind` is `WouldBlock`,
and the scripted error is surfaced to the caller as-is. -/
theorem err_wake_iff_would_block {σ : Type} (R : ReadFn σ) (p : PartialAsyncRead σ)
    (buf : List Nat) (kind : ErrorKind) (rest : List PartialOp)
    (hops : p.ops = PartialOp.err kind :: rest) :
    ((p.read R buf).wake = true ↔ kind = ErrorKind.wouldBlock) ∧
    (p.read R buf).result =
      Except.error ⟨kind, "error during read, generated by partial-io"⟩ := by
  obtain ⟨inner, ops⟩ := p
  simp only at hops
  subst hops
  refine ⟨?_, rfl⟩
  show (kind == ErrorKind.wouldBlock) = true ↔ kind = ErrorKind.wouldBlock
  cases kind <;> decide

/-- Witness for C4 at a concrete input: script `[Err(WouldBlock)]`. -/
theorem err_wake_iff_would_block_witness :
    (PartialAsyncRead.new 0 [PartialOp.err ErrorKind.wouldBlock]).ops
      = [PartialOp.err ErrorKind.wouldBlock] ∧
    ((((PartialAsyncRead.new 0 [PartialOp.err ErrorKind.wouldBlock]).read okReader
        [1, 2]).wake = true ↔ ErrorKind.wouldBlock = ErrorKind.wouldBlock) ∧
      ((PartialAsyncRead.new 0 [PartialOp.err ErrorKind.wouldBlock]).read okReader
        [1, 2]).result = Except.error
          ⟨ErrorKind.wouldBlock, "error during read, generated by partial-io"⟩) :=
  ⟨rfl, err_wake_iff_would_block okReader
    (PartialAsyncRead.new 0 [PartialOp.err ErrorKind.wouldBlock]) [1, 2]
    ErrorKind.wouldBlock [] rfl⟩

/-- C9: for any `Limited(n)` scripted operation, also with `n = 0` or `n`
larger than the buffer, the slice handed to the underlying stream has length
`min n L ≤ L`, so the subslicing `buf[..len]` is always in bounds, and the
buffer keeps its length. -/
theorem limited_slice_in_bounds {σ : Type} (R : ReadFn σ) (p : PartialAsyncRead σ)
    (buf : List Nat) (n : Nat) (rest : List PartialOp)
    (hops : p.ops = PartialOp.limited n :: rest) :
    min n buf.length ≤ buf.length ∧
    (buf.take (min n buf.length)).length = min n buf.length ∧
    (p.read R buf).buf.length = buf.length := by
  obtain ⟨inner, ops⟩ := p
  simp only at hops
  subst hops
  have hle : min n buf.length ≤ buf.length := Nat.min_le_right n buf.length
  have htake : (buf.take (min n buf.length)).length = min n buf.length := by
    rw [List.length_take]
    exact Nat.min_eq_left hle
  refine ⟨hle, htake, ?_⟩
  show ((R inner (buf.take (min n buf.length))).2.1.1 ++
      buf.drop (min n buf.length)).length = buf.length
  rw [List.length_append, (R inner (buf.take (min n buf.length))).2.1.2, htake,
    List.length_drop]
  omega

/-- Witness for C9 at a concrete input: `Limited(5)` against a length-3
buffer (`n` larger than the buffer). -/
theorem limited_slice_in_bounds_witness :
    (PartialAsyncRead.new 0 [PartialOp.limited 5]).ops = [PartialOp.limited 5] ∧
    (min 5 3 ≤ 3 ∧
      (([1, 2, 3] : List Nat).take (min 5 3)).length = min 5 3 ∧
      ((PartialAsyncRead.new 0 [PartialOp.limited 5]).read okReader [1, 2, 3]).buf.length
        = 3) :=
  ⟨rfl, limited_slice_in_bounds okReader
    (PartialAsyncRead.new 0 [PartialOp.limited 5]) [1, 2, 3] 5 [] rfl⟩

/-- C10: every failure synthesized from a scripted `Err` entry carries the
fixed payload message `error during read, generated by partial-io`. -/
theorem scripted_error_message {σ : Type} (R : ReadFn σ) (p : PartialAsyncRead σ)
    (buf : List Nat) (kind : ErrorKind) (rest : List PartialOp)
    (hops : p.ops = PartialOp.err kind :: rest) :
    (p.read R buf).result =
      Except.error ⟨kind, "error during read, generated by partial-io"⟩ := by
  obtain ⟨inner, ops⟩ := p
  simp only at hops
  subst hops
  rfl

/-- Witness for C10 at a concrete input: script `[Err(Other)]`. -/
theorem scripted_error_message_witness :
    (PartialAsyncRead.new 0 [PartialOp.err ErrorKind.other]).ops
      = [PartialOp.err ErrorKind.other] ∧
    ((PartialAsyncRead.new 0 [PartialOp.err ErrorKind.other]).read okReader [9]).result
      = Except.error ⟨ErrorKind.other, "error during read, generated by partial-io"⟩ :=
  ⟨rfl, scripted_error_message okReader
    (PartialAsyncRead.new 0 [PartialOp.err ErrorKind.other]) [9] ErrorKind.other [] rfl⟩

/-- C5: `set_ops` installs the new script and discards every unconsumed
entry of the old one: the underlying reader is untouched, a subsequent
`read` behaves exactly as on a freshly built wrapper holding only the new
script, and that `read` consumes the first entry of the new script (the
remaining script afterwards is the new script's tail). -/
theorem set_ops_replaces_script {σ : Type} (R : ReadFn σ) (p : PartialAsyncRead σ)
    (iter : List PartialOp) (op : PartialOp) (rest : List PartialOp) (buf : List Nat) :
    (p.set_ops iter).ops = iter ∧
    (p.set_ops iter).inner = p.inner ∧
    (p.set_ops iter).read R buf = (PartialAsyncRead.new p.inner iter).read R buf ∧
    ((p.set_ops (op :: rest)).read R buf).ops = rest := by
  refine ⟨rfl, rfl, rfl, ?_⟩
  cases op <;> rfl

/-- C6: every `read` call pulls exactly one scripted operation from the
queue (the remaining script is the tail of the previous one, the `Err`
branch included) and makes at most one delegated call to the underlying
stream. -/
theorem read_pulls_one_op {σ : Type} (R : ReadFn σ) (p : PartialAsyncRead σ)
    (buf : List Nat) :
    (p.read R buf).ops = p.ops.tail ∧ (p.read R buf).innerCalls ≤ 1 := by
  obtain ⟨inner, ops⟩ := p
  cases ops with
  | nil => exact ⟨rfl, Nat.le_refl 1⟩
  | cons op rest =>
      cases op with
      | unlimited => exact ⟨rfl, Nat.le_refl 1⟩
      | limited n => exact ⟨rfl, Nat.le_refl 1⟩
      | err kind => exact ⟨rfl, Nat.zero_le 1⟩

/-- C7: for a duplex wrapper, `write`, `flush` and `shutdown` are forwarded
directly to the underlying stream — arguments and results unchanged — and
none of them pulls from or modifies the scripted-operation queue. -/
theorem duplex_forwarding_bypasses_queue {σ : Type} (W : WriteFn σ) (F : FlushFn σ)
    (S : ShutdownFn σ) (p : PartialAsyncRead σ) (buf : List Nat) :
    (p.write W buf).1 = (W p.inner buf).1 ∧
    ((p.write W buf).2).ops = p.ops ∧
    ((p.write W buf).2).inner = (W p.inner buf).2 ∧
    (p.flush F).1 = (F p.inner).1 ∧
    ((p.flush F).2).ops = p.ops ∧
    ((p.flush F).2).inner = (F p.inner).2 ∧
    (p.shutdown S).1 = (S p.inner).1 ∧
    ((p.shutdown S).2).ops = p.ops ∧
    ((p.shutdown S).2).inner = (S p.inner).2 :=
  ⟨rfl, rfl, rfl, rfl, rfl, rfl, rfl, rfl, rfl⟩

/-- C8: on every delegated call (next operation `Limited`, `Unlimited`, or
queue exhausted), a failure of the underlying stream is returned to the
caller unchanged — same kind, same payload message. -/
theorem delegated_error_pass_through {σ : Type} (R : ReadFn σ) (p : PartialAsyncRead σ)
    (buf : List Nat) (e : IoError)
    (hops : ∀ kind : ErrorKind, p.ops.head? ≠ some (PartialOp.err kind))
    (herr : ∀ b : List Nat, (R p.inner b).1 = Except.error e) :
    (p.read R buf).result = Except.error e := by
  obtain ⟨inner, ops⟩ := p
  simp only at hops herr
  cases ops with
  | nil => exact herr buf
  | cons op rest =>
      cases op with
      | unlimited => exact herr buf
      | limited n => exact herr (buf.take (min n buf.length))
      | err kind => exact absurd rfl (hops kind)

/-- Witness for C8 at a concrete input: script `[Limited(2)]` over an
underlying reader that always fails with a fixed genuine error. -/
theorem delegated_error_pass_through_witness :
    (∀ kind : ErrorKind, (PartialAsyncRead.new 0 [PartialOp.limited 2]).ops.head?
      ≠ some (PartialOp.err kind)) ∧
    (∀ b : List Nat, (errReader 0 b).1
      = Except.error ⟨ErrorKind.unexpectedEof, "inner failure"⟩) ∧
    ((PartialAsyncRead.new 0 [PartialOp.limited 2]).read errReader [1, 2, 3]).result
      = Except.error ⟨ErrorKind.unexpectedEof, "inner failure"⟩ :=
  ⟨fun _ h => PartialOp.noConfusion (Option.some.inj h),
    fun _ => rfl,
    delegated_error_pass_through errReader (PartialAsyncRead.new 0 [PartialOp.limited 2])
      [1, 2, 3] ⟨ErrorKind.unexpectedEof, "inner failure"⟩
      (fun _ h => PartialOp.noConfusion (Option.some.inj h)) (fun _ => rfl)⟩
